import Mathlib

/-!
Shallow embedding of the error-capture and reporting subsystem of the
VoiceJournal React Native application: the managed-runtime ErrorHandler
service, the ErrorBoundary component, the Android CrashHandler and
NativeErrorModule, and the ErrorReportScreen that merges both record
streams. Each definition is translated from the corresponding source
function; nondeterministic inputs of the source (current time, random ids,
device metadata, whether a storage primitive throws) are passed in as
explicit parameters.
-/

set_option maxRecDepth 4000

/-- JSON value as held inside an Android org.json JSONObject/JSONArray.
Only the constructors the sources actually store are modelled: strings,
non-negative integers (System.currentTimeMillis), and nested objects
(the device block of a crash record). -/
inductive JVal where
  | str (s : String)
  | num (n : Nat)
  | obj (fields : List (String × JVal))

/-- JSON object: an ordered field list, as built by JSONObject().apply. -/
abbrev JObj := List (String × JVal)

mutual

/-- String conversion used by org.json optString for non-string values
(String.valueOf): numbers print their decimal text, objects serialize.
No modelled read path ever reads an object-valued field, so the object
serialization (which omits character escaping) is inert. -/
def JVal.serialize : JVal → String
  | .str s => s
  | .num n => toString n
  | .obj fs => "\x7b" ++ JVal.serializeFields fs ++ "\x7d"

/-- Field-list serialization helper for JVal.serialize. -/
def JVal.serializeFields : List (String × JVal) → String
  | [] => ""
  | (k, v) :: [] => "\"" ++ k ++ "\":" ++ JVal.serialize v
  | (k, v) :: rest => "\"" ++ k ++ "\":" ++ JVal.serialize v ++ "," ++ JVal.serializeFields rest

end

/-- JSONObject.optString(name, fallback): the value converted to text when
the field is present, the fallback when absent. -/
def JObj.optString (o : JObj) (name fallback : String) : String :=
  match o.find? (fun kv => kv.1 == name) with
  | some kv => kv.2.serialize
  | none => fallback

/-- Identity of one SharedPreferences entry: (preferences file name, entry key). -/
abbrev PrefKey := String × String

/-- All Android SharedPreferences state of the process: each entry holds the
JSON array of records that the sources serialize into that slot. The JSON
text round-trip (JSONArray.toString / JSONArray parsing) is modelled as the
identity on the structured array. -/
abbrev Prefs := List (PrefKey × List JObj)

/-- Read of prefs.getString(key, default) followed by JSONArray parsing, with
the default JSON text of an empty array. -/
def Prefs.getArr (p : Prefs) (k : PrefKey) : List JObj :=
  match p.find? (fun kv => kv.1 == k) with
  | some kv => kv.2
  | none => []

/-- Write of prefs.edit().putString(key, array.toString()).apply(). -/
def Prefs.putArr (p : Prefs) (k : PrefKey) (v : List JObj) : Prefs :=
  (k, v) :: p.filter (fun kv => !(kv.1 == k))

/-- Write of prefs.edit().remove(key).apply(). -/
def Prefs.removeArr (p : Prefs) (k : PrefKey) : Prefs :=
  p.filter (fun kv => !(kv.1 == k))

/-- State before any record was persisted. -/
def Prefs.empty : Prefs := []

/-- Managed-store insertion step shared by ErrorHandler.logError
(updatedLogs = [errorLog, ...existingLogs].slice(0, MAX_ERROR_LOGS)) and
ErrorBoundary.logError ([errorLog, ...existingLogs].slice(0, 50)). -/
def managedInsert {α : Type} (x : α) (l : List α) : List α :=
  (x :: l).take 50

/-- Iterated managed-store insertion, one call per captured fault. -/
def managedInsertAll {α : Type} (xs : List α) (l : List α) : List α :=
  xs.foldl (fun acc x => managedInsert x acc) l

namespace CrashHandler

/-- Preferences file name CRASH_PREFS of CrashHandler. -/
def CRASH_PREFS : String := "voice_journal_crashes"

/-- Entry key CRASH_LOGS_KEY of CrashHandler. -/
def CRASH_LOGS_KEY : String := "crash_logs"

/-- Bound MAX_CRASH_LOGS of the crash-log store. -/
def MAX_CRASH_LOGS : Nat := 10

/-- SharedPreferences slot the CrashHandler persists into. -/
def crashKey : PrefKey := (CRASH_PREFS, CRASH_LOGS_KEY)

/-- Crash-store insertion step of CrashHandler.saveCrashLog: the new log is
put first, then the existing logs up to MAX_CRASH_LOGS - 1 of them. -/
def crashInsert {α : Type} (x : α) (l : List α) : List α :=
  x :: l.take (MAX_CRASH_LOGS - 1)

/-- Iterated crash-store insertion, one call per uncaught native exception. -/
def crashInsertAll {α : Type} (xs : List α) (l : List α) : List α :=
  xs.foldl (fun acc x => crashInsert x acc) l

/-- Data of a Kotlin Throwable as read by saveCrashLog: throwable.message
(nullable), throwable.javaClass.name, and the backtrace text produced by
getStackTraceString. -/
structure Throwable where
  message : Option String
  className : String
  stackText : String
deriving DecidableEq

/-- Device metadata read from android.os.Build. -/
structure DeviceInfo where
  manufacturer : String
  model : String
  androidVersion : String
  sdkInt : Nat
deriving DecidableEq

/-- Ambient inputs of the CrashHandler: whether building the JSON record
throws, whether the SharedPreferences write throws, whether a default
uncaught-exception handler was registered before installation, and the
nondeterministic identifiers read at capture time. -/
structure Env where
  buildFails : Bool
  persistFails : Bool
  defaultPresent : Bool
  now : Nat
  uuid : String
  tstamp : String
  device : DeviceInfo

/-- JSON crash record built by saveCrashLog. -/
def crashRecord (env : Env) (threadName : String) (thr : Throwable) : JObj :=
  [("id", .str ("crash_" ++ toString env.now ++ "_" ++ env.uuid)),
   ("timestamp", .str env.tstamp),
   ("type", .str "native"),
   ("thread", .str threadName),
   ("message", .str (thr.message.getD "Unknown crash")),
   ("className", .str thr.className),
   ("stackTrace", .str thr.stackText),
   ("device", .obj
     [("manufacturer", .str env.device.manufacturer),
      ("model", .str env.device.model),
      ("androidVersion", .str env.device.androidVersion),
      ("sdkInt", .num env.device.sdkInt)])]

/-- Native-side state touched by the CrashHandler: SharedPreferences plus the
android.util.Log lines (the low-level diagnostic channel). -/
structure CrashState where
  prefs : Prefs
  logcat : List String

/-- Body of the try block of saveCrashLog: build the JSON record, read the
existing array, prepend, trim, and write back. Either fallible step throws
when the corresponding Env flag is set. -/
def saveCrashLogBody (env : Env) (threadName : String) (thr : Throwable)
    (p : Prefs) : Except String Prefs :=
  if env.buildFails then .error "JSONException while building crash log"
  else
    let recObj := crashRecord env threadName thr
    let existing := p.getArr crashKey
    let newLogs := crashInsert recObj existing
    if env.persistFails then .error "SharedPreferences write failed"
    else .ok (p.putArr crashKey newLogs)

/-- CrashHandler.saveCrashLog: runs the body and catches every exception,
logging only to Log.e / Log.d. -/
def saveCrashLog (env : Env) (threadName : String) (thr : Throwable)
    (st : CrashState) : CrashState :=
  match saveCrashLogBody env threadName thr st.prefs with
  | .ok p => { prefs := p, logcat := st.logcat ++ ["Crash log saved"] }
  | .error _ => { st with logcat := st.logcat ++ ["Failed to save crash log"] }

/-- Result of one invocation of the uncaught-exception handler: the native
state afterwards and the delegation to the previously registered default
handler (with the thread and throwable it receives), if one was present. -/
structure HandlerOutcome where
  state : CrashState
  chained : Option (String × Throwable)

/-- CrashHandler.uncaughtException: try (Log.e, saveCrashLog) catch (Log.e)
finally (defaultHandler?.uncaughtException(thread, throwable)). saveCrashLog
catches internally, so the try body is total and the catch arm is inert; the
finally arm delegates unconditionally. -/
def uncaughtException (env : Env) (threadName : String) (thr : Throwable)
    (st : CrashState) : HandlerOutcome :=
  let st1 := { st with
    logcat := st.logcat ++ ["Uncaught exception in thread " ++ threadName] }
  let st2 := saveCrashLog env threadName thr st1
  { state := st2,
    chained := if env.defaultPresent then some (threadName, thr) else none }

end CrashHandler

namespace NativeErrorModule

/-- Preferences file name used by NativeErrorModule. -/
def PREFS_NAME : String := "VoiceJournalPrefs"

/-- Entry key ERROR_LOG_PREF of NativeErrorModule. -/
def ERROR_LOG_PREF : String := "native_error_logs"

/-- SharedPreferences slot the NativeErrorModule reads and writes. -/
def errKey : PrefKey := (PREFS_NAME, ERROR_LOG_PREF)

/-- Native error record shape delivered to the managed layer by
getNativeErrorLogs (the NativeErrorLog interface on the TypeScript side).
The source field name type is rendered rtype. -/
structure NativeErrorLog where
  timestamp : String
  context : String
  message : String
  stackTrace : String
  rtype : String
deriving DecidableEq

/-- Per-record parsing of getNativeErrorLogs: each field extracted with
optString and its fallback. -/
def parseLog (o : JObj) : NativeErrorLog :=
  { timestamp := o.optString "timestamp" ""
    context := o.optString "context" ""
    message := o.optString "message" ""
    stackTrace := o.optString "stackTrace" ""
    rtype := o.optString "type" "native" }

/-- Bridge read operation getNativeErrorLogs: reads the native_error_logs
array and resolves with each entry parsed; rejects only if reading or
parsing throws, which the structured Prefs model cannot produce. -/
def getNativeErrorLogs (p : Prefs) : Except String (List NativeErrorLog) :=
  .ok ((p.getArr errKey).map parseLog)

/-- Bridge clear operation clearNativeErrorLogs. -/
def clearNativeErrorLogs (p : Prefs) : Except String (Bool × Prefs) :=
  .ok (true, p.removeArr errKey)

/-- Native-store insertion step of logNativeError: append the new error,
then keep only the last 20 entries (startIndex = max(0, length - 20)). -/
def nativeInsert {α : Type} (x : α) (l : List α) : List α :=
  let l2 := l ++ [x]
  l2.drop (l2.length - 20)

/-- Iterated native-store insertion, one call per logged error. -/
def nativeInsertAll {α : Type} (xs : List α) (l : List α) : List α :=
  xs.foldl (fun acc x => nativeInsert x acc) l

/-- JSON record built by logNativeError (timestamp is
System.currentTimeMillis, a number). -/
def newErrorObj (now : Nat) (context message stackTrace : String) : JObj :=
  [("timestamp", .num now),
   ("context", .str context),
   ("message", .str message),
   ("stackTrace", .str stackTrace),
   ("type", .str "native")]

/-- Bridge write operation logNativeError: append-and-trim into the
native_error_logs array, then resolve true. -/
def logNativeError (now : Nat) (context message stackTrace : String)
    (p : Prefs) : Except String (Bool × Prefs) :=
  let existing := p.getArr errKey
  let final := nativeInsert (newErrorObj now context message stackTrace) existing
  .ok (true, p.putArr errKey final)

end NativeErrorModule

/-- Managed fault record as persisted by ErrorHandler.logError and
ErrorBoundary.logError (the ErrorLog interface). The nondeterministic id and
timestamp and the unused props/url/line/column fields are omitted; the
source field name type is rendered rtype. -/
structure MRec where
  rtype : String
  message : String
  stack : Option String
  componentStack : Option String
deriving DecidableEq

/-- Managed-runtime observable state: the parsed content of the
AsyncStorage entry at ERROR_LOGS_KEY (newest record first) and the lines
printed by the original, un-intercepted console.error. -/
structure MState where
  store : List MRec
  printed : List String
deriving DecidableEq

/-- State before any record was logged or printed. -/
def MState.empty : MState := { store := [], printed := [] }

/-- Ambient behaviour of AsyncStorage inside ErrorHandler.logError: whether
setItem rejects, and the text of the storage error when it does. -/
structure MEnv where
  storageFails : Bool
  storageErrText : String

/-- Environment in which the AsyncStorage write succeeds. -/
def okEnv : MEnv := { storageFails := false, storageErrText := "" }

namespace ErrorHandler

/-- Test whether the pattern starts at the head of the text. -/
def prefixAt : List Char → List Char → Bool
  | [], _ => true
  | _ :: _, [] => false
  | a :: pat, b :: s => a == b && prefixAt pat s

/-- Test whether the pattern occurs at any position of the text. -/
def subSearch (pat : List Char) : List Char → Bool
  | [] => prefixAt pat []
  | b :: s => prefixAt pat (b :: s) || subSearch pat s

/-- The JavaScript String.prototype.includes test used by the console-error
interceptor: substring containment. -/
def strContains (s pat : String) : Bool :=
  subSearch pat.data s.data

/-- The allow-skip test of the console-error interceptor:
message.includes("Warning:") or message.includes("[GESTURE HANDLER]"). -/
def benign (msg : String) : Bool :=
  strContains msg "Warning:" || strContains msg "[GESTURE HANDLER]"

/-- Joined argument text of the console.error("Error logged:", errorLog)
call inside logError: the record object stringifies to [object Object]. -/
def reentrantMsg : String := "Error logged: [object Object]"

/-- Joined argument text of the console.error call in the catch arm of
logError when the AsyncStorage write rejects. -/
def storageFailMsg (env : MEnv) : String :=
  "Failed to log error to storage: " ++ env.storageErrText

/-- Record written by the console-error interceptor for a non-benign
message. -/
def consoleRec (msg : String) : MRec :=
  { rtype := "javascript", message := "Console Error: " ++ msg,
    stack := none, componentStack := none }

/-- Body of ErrorHandler.logError, parameterized by the behaviour of the
global console.error it calls (which, after setupGlobalErrorHandling, is
the intercepted one): build the record, console.error("Error logged:", it),
then read-prepend-trim-write the store; a rejected write is caught and
console.error-logged. -/
def logErrorWith (env : MEnv) (consoleE : String → MState → MState)
    (entry : MRec) (st : MState) : MState :=
  let st1 := consoleE reentrantMsg st
  if env.storageFails then consoleE (storageFailMsg env) st1
  else { st1 with store := managedInsert entry st1.store }

/-- One invocation of the global console.error after wrappers-many calls to
setupGlobalErrorHandling. Each wrapper skips benign messages, otherwise runs
this.logError on the Console Error record and then calls the console.error
it captured at install time; the innermost call is the original, which
prints. Re-entrant invocations made from inside logError run at fuel one
lower; at fuel zero the recursion is cut off, standing for the stack
exhaustion the unbounded source recursion runs into. -/
def consoleError (env : MEnv) : Nat → Nat → String → MState → MState
  | 0, _, _, st => st
  | fuel + 1, wrappers, msg, st =>
    let st1 :=
      if benign msg then st
      else
        (fun s => logErrorWith env (consoleError env fuel wrappers) (consoleRec msg) s)^[wrappers] st
    { st1 with printed := st1.printed ++ [msg] }

/-- ErrorHandler.logError as callable after setupGlobalErrorHandling has run
wrappers times: its internal console.error calls go to the intercepted
chain. -/
def logError (env : MEnv) (fuel wrappers : Nat) (entry : MRec)
    (st : MState) : MState :=
  logErrorWith env (consoleError env fuel wrappers) entry st

/-- JavaScript truthiness fallback (a or-else b) on an optional string:
null, undefined and the empty string all select the fallback. -/
def jsOr (s : Option String) (d : String) : String :=
  match s with
  | none => d
  | some s => if s = "" then d else s

/-- The onUnhandled arm of the promise-rejection tracker installed by
setupGlobalErrorHandling: logs a promise record whose message prefixes the
rejection message with Unhandled Promise Rejection. The dev-only toast has
no effect on the store or the printed output and is not modelled. -/
def onUnhandledRejection (env : MEnv) (fuel wrappers : Nat)
    (errMessage : String) (errStack : Option String) (st : MState) : MState :=
  logError env fuel wrappers
    { rtype := "promise"
      message := "Unhandled Promise Rejection: " ++
        (if errMessage = "" then "Unknown error" else errMessage)
      stack := errStack, componentStack := none } st

/-- Outcome of the AsyncStorage read performed by getErrorLogs: the getItem
promise rejects, resolves null, resolves text JSON.parse rejects on, or
resolves text parsing to a record array. -/
inductive StorageRead where
  | failure (e : String)
  | missing
  | corrupt (raw : String)
  | content (logs : List MRec)

/-- Body of the try block of ErrorHandler.getErrorLogs: null means no logs,
otherwise parse; a rejected read or parse propagates. The per-record
timestamp re-wrapping is the identity here since MRec carries no
timestamp. -/
def getErrorLogsBody : StorageRead → Except String (List MRec)
  | .failure e => .error e
  | .missing => .ok []
  | .corrupt raw => .error ("JSON.parse: " ++ raw)
  | .content logs => .ok logs

/-- ErrorHandler.getErrorLogs: the catch arm turns every failure into the
empty list (after a console.error diagnostic). -/
def getErrorLogs (r : StorageRead) : List MRec :=
  match getErrorLogsBody r with
  | .ok l => l
  | .error _ => []

/-- ErrorHandler.clearErrorLogs: awaits the removeItem outcome; a rejection
is caught and only console.error-logged. The returned list is the
diagnostic output of the catch arm; the function itself always completes. -/
def clearErrorLogs (removal : Except String Unit) : List String :=
  match removal with
  | .ok _ => []
  | .error e => ["Error clearing error logs: " ++ e]

end ErrorHandler

namespace ErrorBoundary

/-- JavaScript Error as seen by the boundary: message and optional stack. -/
structure JsError where
  message : String
  stack : Option String
deriving DecidableEq

/-- Component state of the ErrorBoundary: hasError plus the captured error
and the componentStack of the React ErrorInfo. -/
structure BState where
  hasError : Bool
  error : Option JsError
  errorInfo : Option String
deriving DecidableEq

/-- Constructor state: hasError false, error null, errorInfo null. -/
def init : BState := { hasError := false, error := none, errorInfo := none }

/-- Record written by ErrorBoundary.logError: type component, with the
source falsiness fallbacks on message, stack and componentStack. -/
def record (e : JsError) (cs : String) : MRec :=
  { rtype := "component"
    message := ErrorHandler.jsOr (some e.message) "Component error"
    stack := some (ErrorHandler.jsOr e.stack "No stack trace")
    componentStack := some (ErrorHandler.jsOr (some cs) "No component stack") }

/-- Events the boundary reacts to: a render attempt of the wrapped subtree
(which either completes or throws an error carrying a componentStack), and
the Try Again button of the fallback view. -/
inductive BEvent where
  | childRender (fault : Option (JsError × String))
  | tryAgain
deriving DecidableEq

/-- One step of the boundary state machine over the managed store. While
hasError is set the children are not rendered (the fallback view shows), so
a childRender event is inert; a throwing render triggers
getDerivedStateFromError plus componentDidCatch, which records the error
info and writes exactly one component record; tryAgain is handleRestart,
which resets the full state and re-attempts the children on the next
render. -/
def step (st : BState) (store : List MRec) (ev : BEvent) : BState × List MRec :=
  match ev with
  | .childRender fault =>
    if st.hasError then (st, store)
    else
      match fault with
      | none => (st, store)
      | some (e, cs) =>
        ({ hasError := true, error := some e, errorInfo := some cs },
         managedInsert (record e cs) store)
  | .tryAgain =>
    if st.hasError then (init, store) else (st, store)

end ErrorBoundary

namespace ErrorReportScreen

/-- Managed-side record as the screen reads it back from AsyncStorage (the
ErrorLog interface of ErrorReportScreen). The timestamp field of the source
is an ISO date string consumed only through new Date(s).getTime(); it is
modelled directly by that numeric time value. -/
structure JsLog where
  id : String
  timestamp : Nat
  rtype : String
  message : String
  stack : Option String
  componentStack : Option String
deriving DecidableEq

/-- One entry of the merged allErrors array, tagged with its runtime origin
(the _type discriminator of the source). -/
inductive MergedLog where
  | js (e : JsLog)
  | native (e : NativeErrorModule.NativeErrorLog)
deriving DecidableEq

/-- JavaScript parseInt on the decimal strings this subsystem stores (the
native timestamps are System.currentTimeMillis printed in base 10). -/
def parseDecimal (s : String) : Nat :=
  s.data.foldl (fun n c => n * 10 + (c.toNat - 48)) 0

/-- Sort key of the merge: the js branch is new Date(timestamp).getTime()
on the ISO string (carried directly), the native branch is
parseInt(timestamp) on the decimal string. -/
def MergedLog.time : MergedLog → Nat
  | .js e => e.timestamp
  | .native e => parseDecimal e.timestamp

/-- Comparator order of the merge sort: (a, b) => timeB - timeA puts larger
times first. -/
def timeDesc (a b : MergedLog) : Prop :=
  MergedLog.time b ≤ MergedLog.time a

instance : DecidableRel timeDesc := fun a b =>
  Nat.decLe (MergedLog.time b) (MergedLog.time a)

instance : IsTotal MergedLog timeDesc :=
  ⟨fun a b => Nat.le_total (MergedLog.time b) (MergedLog.time a)⟩

instance : IsTrans MergedLog timeDesc :=
  ⟨fun _ _ _ hab hbc => Nat.le_trans hbc hab⟩

/-- The concatenation [...errors tagged js, ...nativeErrors tagged native]
before sorting. -/
def taggedLogs (errors : List JsLog)
    (natives : List NativeErrorModule.NativeErrorLog) : List MergedLog :=
  errors.map MergedLog.js ++ natives.map MergedLog.native

/-- The allErrors value of the screen: the tagged concatenation run through
the stable Array.prototype.sort with the descending-time comparator. A
stable sort with respect to a total preorder has a unique result, so it is
rendered by insertion sort with the same order. -/
def allErrors (errors : List JsLog)
    (natives : List NativeErrorModule.NativeErrorLog) : List MergedLog :=
  List.insertionSort timeDesc (taggedLogs errors natives)

/-- Component state of the screen that the claims observe: the two record
arrays, the loading flag, and the titles of the alerts raised during
load. -/
structure ScreenState where
  errors : List JsLog
  nativeErrors : List NativeErrorModule.NativeErrorLog
  isLoading : Bool
  alerts : List String
deriving DecidableEq

/-- ErrorReportScreen.loadAllErrorLogs: read the managed entry (null leaves
errors empty), then try the bridge read; a bridge failure is caught by the
inner catch, console.error-logged, and the load continues without native
logs and without any user-facing notice; only a managed-read failure
reaches the outer catch and raises the Failed-to-load alert; the finally
arm always clears isLoading. -/
def loadAllErrorLogs (managedRead : Except String (Option (List JsLog)))
    (nativeRead : Except String (List NativeErrorModule.NativeErrorLog)) :
    ScreenState :=
  match managedRead with
  | .error _ =>
    { errors := [], nativeErrors := [], isLoading := false,
      alerts := ["Failed to load error logs"] }
  | .ok mOpt =>
    let errs := mOpt.getD []
    match nativeRead with
    | .error _ =>
      { errors := errs, nativeErrors := [], isLoading := false, alerts := [] }
    | .ok nl =>
      { errors := errs, nativeErrors := nl, isLoading := false, alerts := [] }

/-- What the screen body renders: the loading placeholder, the positive
No-Errors-Recorded empty state, or the merged list. -/
inductive Rendered where
  | loading
  | emptyState
  | list (items : List MergedLog)
deriving DecidableEq

/-- Render dispatch of ErrorReportScreen: loading screen while isLoading,
the empty container when allErrors has length zero, otherwise the summary
plus FlatList over allErrors. -/
def render (st : ScreenState) : Rendered :=
  if st.isLoading then .loading
  else if (allErrors st.errors st.nativeErrors).isEmpty then .emptyState
  else .list (allErrors st.errors st.nativeErrors)

end ErrorReportScreen

/-! Helper lemmas about the bounded-store insertion steps. -/

theorem take_append_take {α : Type} (n : Nat) (a b : List α) :
    (a ++ b.take n).take n = (a ++ b).take n := by
  rw [List.take_append_eq_append_take, List.take_append_eq_append_take,
    List.take_take, Nat.min_eq_left (Nat.sub_le n a.length)]

theorem foldl_prependTake {α : Type} (n : Nat) (xs : List α) :
    ∀ l : List α,
      xs.foldl (fun acc x => (x :: acc).take n) (l.take n) =
        (xs.reverse ++ l).take n := by
  induction xs with
  | nil => intro l; simp
  | cons x xs ih =>
    intro l
    have hx : ((x :: l).take n).take n = ((x :: l).take n) := by
      rw [List.take_take, Nat.min_self]
    calc (x :: xs).foldl (fun acc x => (x :: acc).take n) (l.take n)
        = xs.foldl (fun acc x => (x :: acc).take n) ((x :: l.take n).take n) := by
          simp [List.foldl_cons]
      _ = xs.foldl (fun acc x => (x :: acc).take n) (((x :: l).take n).take n) := by
          rw [show (x :: l.take n).take n = ((x :: l).take n).take n from by
            rw [hx]
            exact take_append_take n [x] l]
      _ = xs.foldl (fun acc x => (x :: acc).take n) (((x :: l).take n)) := by rw [hx]
      _ = (xs.reverse ++ (x :: l)).take n := ih (x :: l)
      _ = ((x :: xs).reverse ++ l).take n := by simp

theorem managedInsertAll_closed {α : Type} (xs : List α) :
    managedInsertAll xs [] = xs.reverse.take 50 := by
  have h := foldl_prependTake 50 xs ([] : List α)
  simpa [managedInsertAll, managedInsert] using h

theorem crashInsert_eq_take {α : Type} (x : α) (l : List α) :
    CrashHandler.crashInsert x l = (x :: l).take 10 := by
  simp [CrashHandler.crashInsert, CrashHandler.MAX_CRASH_LOGS]

theorem crashInsertAll_closed {α : Type} (xs : List α) :
    CrashHandler.crashInsertAll xs [] = xs.reverse.take 10 := by
  have h := foldl_prependTake 10 xs ([] : List α)
  simp only [List.take_nil, List.append_nil] at h
  rw [CrashHandler.crashInsertAll]
  simp only [crashInsert_eq_take]
  exact h

theorem nativeInsert_eq_reverse {α : Type} (x : α) (l : List α) :
    NativeErrorModule.nativeInsert x l = ((x :: l.reverse).take 20).reverse := by
  rw [List.reverse_take]
  simp [NativeErrorModule.nativeInsert]

theorem nativeInsertAll_reverse {α : Type} (xs : List α) :
    ∀ l : List α,
      NativeErrorModule.nativeInsertAll xs l =
        (xs.foldl (fun acc x => (x :: acc).take 20) l.reverse).reverse := by
  induction xs with
  | nil => intro l; simp [NativeErrorModule.nativeInsertAll]
  | cons x xs ih =>
    intro l
    calc NativeErrorModule.nativeInsertAll (x :: xs) l
        = NativeErrorModule.nativeInsertAll xs (NativeErrorModule.nativeInsert x l) := by
          simp [NativeErrorModule.nativeInsertAll]
      _ = (xs.foldl (fun acc x => (x :: acc).take 20)
            (NativeErrorModule.nativeInsert x l).reverse).reverse := ih _
      _ = (xs.foldl (fun acc x => (x :: acc).take 20)
            ((x :: l.reverse).take 20)).reverse := by
          rw [nativeInsert_eq_reverse, List.reverse_reverse]
      _ = ((x :: xs).foldl (fun acc x => (x :: acc).take 20) l.reverse).reverse := by
          simp [List.foldl_cons]

theorem nativeInsertAll_closed {α : Type} (xs : List α) :
    NativeErrorModule.nativeInsertAll xs [] = xs.drop (xs.length - 20) := by
  rw [nativeInsertAll_reverse xs []]
  have h := foldl_prependTake 20 xs ([] : List α)
  simp only [List.take_nil, List.append_nil] at h
  rw [List.reverse_nil, h, List.reverse_take]
  simp

/-- Claim C4 counterexample: the claim asserts every native store keeps the
20 most recent records, but eleven insertions through
CrashHandler.saveCrashLog leave only ten records, the first (oldest) one
evicted. -/
theorem claim_C4_counterexample :
    (CrashHandler.crashInsertAll (List.range 11) []).length = 10 ∧
      (0 : Nat) ∉ CrashHandler.crashInsertAll (List.range 11) [] := by
  decide

/-- Claim C4 (amended): each store retains exactly the most recent records
up to its own bound, oldest evicted first, with capture order preserved:
the managed store keeps the newest 50 (newest first), the bridge-written
native_error_logs store keeps the newest 20 (oldest first), and the
CrashHandler crash store keeps the newest 10 (newest first). -/
theorem claim_C4 :
    (∀ (α : Type) (xs : List α), managedInsertAll xs [] = xs.reverse.take 50)
    ∧ (∀ (α : Type) (xs : List α),
        NativeErrorModule.nativeInsertAll xs [] = xs.drop (xs.length - 20))
    ∧ (∀ (α : Type) (xs : List α),
        CrashHandler.crashInsertAll xs [] = xs.reverse.take 10) :=
  ⟨fun _ xs => managedInsertAll_closed xs,
   fun _ xs => nativeInsertAll_closed xs,
   fun _ xs => crashInsertAll_closed xs⟩

/-! Helper lemmas about the merge sort of the report screen. -/

theorem filter_orderedInsert (t : Nat) (x : ErrorReportScreen.MergedLog) :
    ∀ l, (List.orderedInsert ErrorReportScreen.timeDesc x l).filter
        (fun y => ErrorReportScreen.MergedLog.time y == t)
      = (x :: l).filter (fun y => ErrorReportScreen.MergedLog.time y == t) := by
  intro l
  induction l with
  | nil => rfl
  | cons y ys ih =>
    by_cases hxy : ErrorReportScreen.timeDesc x y
    · rw [List.orderedInsert, if_pos hxy]
    · rw [List.orderedInsert, if_neg hxy]
      have hlt : ErrorReportScreen.MergedLog.time x <
          ErrorReportScreen.MergedLog.time y := Nat.lt_of_not_le hxy
      by_cases hx : ErrorReportScreen.MergedLog.time x = t
      · have hy : ¬ ErrorReportScreen.MergedLog.time y = t := by omega
        simp [List.filter_cons, hx, hy, ih]
      · simp [List.filter_cons, hx, ih]

theorem filter_insertionSort (t : Nat) :
    ∀ l, (List.insertionSort ErrorReportScreen.timeDesc l).filter
        (fun y => ErrorReportScreen.MergedLog.time y == t)
      = l.filter (fun y => ErrorReportScreen.MergedLog.time y == t) := by
  intro l
  induction l with
  | nil => rfl
  | cons x xs ih =>
    rw [List.insertionSort, filter_orderedInsert t x _]
    simp [List.filter_cons, ih]

/-- Claim C5 (confirmed): the merged list of the report screen is a
permutation of the tagged concatenation of the two stores, sorted by time
descending, and stable (for every time value, the records carrying it
appear in their original concatenation order); on the concrete scenario of
the claim, with managed records at times 1 and 3 and a native record at
time 2, the merged order is [t3, t2, t1]. -/
theorem claim_C5 :
    (∀ (errors : List ErrorReportScreen.JsLog)
        (natives : List NativeErrorModule.NativeErrorLog),
      (ErrorReportScreen.allErrors errors natives).Perm
          (ErrorReportScreen.taggedLogs errors natives)
      ∧ List.Pairwise ErrorReportScreen.timeDesc
          (ErrorReportScreen.allErrors errors natives)
      ∧ ∀ t, (ErrorReportScreen.allErrors errors natives).filter
            (fun y => ErrorReportScreen.MergedLog.time y == t)
          = (ErrorReportScreen.taggedLogs errors natives).filter
            (fun y => ErrorReportScreen.MergedLog.time y == t))
    ∧ ErrorReportScreen.allErrors
        [{ id := "a", timestamp := 1, rtype := "javascript", message := "m1",
           stack := none, componentStack := none },
         { id := "b", timestamp := 3, rtype := "promise", message := "m3",
           stack := none, componentStack := none }]
        [{ timestamp := "2", context := "c", message := "m2",
           stackTrace := "s", rtype := "native" }]
      = [.js { id := "b", timestamp := 3, rtype := "promise", message := "m3",
               stack := none, componentStack := none },
         .native { timestamp := "2", context := "c", message := "m2",
                   stackTrace := "s", rtype := "native" },
         .js { id := "a", timestamp := 1, rtype := "javascript", message := "m1",
               stack := none, componentStack := none }] := by
  constructor
  · intro errors natives
    refine ⟨List.perm_insertionSort _ _, ?_, fun t => filter_insertionSort t _⟩
    exact List.sorted_insertionSort _ _
  · decide

/-! Helper lemmas about SharedPreferences slots and the native store. -/

theorem getArr_putArr_same (p : Prefs) (k : PrefKey) (v : List JObj) :
    (p.putArr k v).getArr k = v := by
  simp [Prefs.putArr, Prefs.getArr, List.find?_cons_of_pos]

theorem nativeInsert_getLast {α : Type} (x : α) (l : List α) :
    (NativeErrorModule.nativeInsert x l).getLast? = some x := by
  rw [nativeInsert_eq_reverse, List.getLast?_reverse,
    show (20 : Nat) = 19 + 1 from rfl, List.take_succ_cons]
  rfl

theorem parseLog_newErrorObj (now : Nat) (ctx msg stk : String) :
    NativeErrorModule.parseLog (NativeErrorModule.newErrorObj now ctx msg stk)
      = { timestamp := toString now, context := ctx, message := msg,
          stackTrace := stk, rtype := "native" } := rfl

/-- Claim C1 counterexample: a record persisted by the uncaught-exception
handler of the CrashHandler lands in the voice_journal_crashes preferences
file, which getNativeErrorLogs (reading native_error_logs inside
VoiceJournalPrefs) never sees: starting from empty storage, after a crash is
saved the bridge read still resolves with the empty collection, and the
report screen loads no native record. -/
theorem claim_C1_counterexample :
    NativeErrorModule.getNativeErrorLogs
      (CrashHandler.saveCrashLog
        { buildFails := false, persistFails := false, defaultPresent := true,
          now := 0, uuid := "u", tstamp := "2025-01-01T00:00:00.000Z",
          device := { manufacturer := "Google", model := "Pixel",
                      androidVersion := "14", sdkInt := 34 } }
        "worker-1"
        { message := some "null pointer",
          className := "java.lang.NullPointerException",
          stackText := "backtrace" }
        { prefs := Prefs.empty, logcat := [] }).prefs = .ok []
    ∧ (ErrorReportScreen.loadAllErrorLogs (.ok (some []))
        (NativeErrorModule.getNativeErrorLogs
          (CrashHandler.saveCrashLog
            { buildFails := false, persistFails := false, defaultPresent := true,
              now := 0, uuid := "u", tstamp := "2025-01-01T00:00:00.000Z",
              device := { manufacturer := "Google", model := "Pixel",
                          androidVersion := "14", sdkInt := 34 } }
            "worker-1"
            { message := some "null pointer",
              className := "java.lang.NullPointerException",
              stackText := "backtrace" }
            { prefs := Prefs.empty, logcat := [] }).prefs)).nativeErrors = [] :=
  ⟨rfl, rfl⟩

/-- Claim C1 (amended): the store getNativeErrorLogs reads is the one
logNativeError writes; for every record written through logNativeError, the
bridge read returns it (parsed into the NativeErrorLog shape, type native)
as the most recent entry, and the merged list of the report screen contains
it on the next load. Records persisted by the CrashHandler live in a
different preferences file and are not part of this store. -/
theorem claim_C1 :
    ∀ (p : Prefs) (now : Nat) (ctx msg stk : String),
      ∃ p2 logs,
        NativeErrorModule.logNativeError now ctx msg stk p = .ok (true, p2)
        ∧ NativeErrorModule.getNativeErrorLogs p2 = .ok logs
        ∧ logs.getLast? = some
            { timestamp := toString now, context := ctx, message := msg,
              stackTrace := stk, rtype := "native" }
        ∧ ∀ (errors : List ErrorReportScreen.JsLog),
            (ErrorReportScreen.loadAllErrorLogs (.ok (some errors))
              (NativeErrorModule.getNativeErrorLogs p2)).nativeErrors = logs
            ∧ ErrorReportScreen.MergedLog.native
                  { timestamp := toString now, context := ctx, message := msg,
                    stackTrace := stk, rtype := "native" }
                ∈ ErrorReportScreen.allErrors errors logs := by
  intro p now ctx msg stk
  refine ⟨p.putArr NativeErrorModule.errKey
      (NativeErrorModule.nativeInsert
        (NativeErrorModule.newErrorObj now ctx msg stk)
        (p.getArr NativeErrorModule.errKey)),
    (NativeErrorModule.nativeInsert
        (NativeErrorModule.newErrorObj now ctx msg stk)
        (p.getArr NativeErrorModule.errKey)).map NativeErrorModule.parseLog,
    rfl, ?_, ?_, ?_⟩
  · simp [NativeErrorModule.getNativeErrorLogs, getArr_putArr_same]
  · rw [List.getLast?_map, nativeInsert_getLast]
    simp [parseLog_newErrorObj]
  · intro errors
    constructor
    · simp [NativeErrorModule.getNativeErrorLogs, getArr_putArr_same,
        ErrorReportScreen.loadAllErrorLogs]
    · apply (List.perm_insertionSort _ _).mem_iff.mpr
      apply List.mem_append_right
      apply List.mem_map_of_mem
      rw [← parseLog_newErrorObj now ctx msg stk]
      exact List.mem_map_of_mem _
        (List.mem_of_mem_getLast? (nativeInsert_getLast _ _))

/-- Claim C6 counterexample: with one managed record, a failing bridge read
renders exactly what an empty native store renders (so no native-unavailable
indicator exists), and with no managed records a failing bridge read shows
the positive No-Errors-Recorded empty state. -/
theorem claim_C6_counterexample :
    ErrorReportScreen.render
        (ErrorReportScreen.loadAllErrorLogs
          (.ok (some [{ id := "a", timestamp := 1, rtype := "javascript",
                        message := "m1", stack := none, componentStack := none }]))
          (.error "getNativeErrorLogs rejected"))
      = ErrorReportScreen.render
          (ErrorReportScreen.loadAllErrorLogs
            (.ok (some [{ id := "a", timestamp := 1, rtype := "javascript",
                          message := "m1", stack := none, componentStack := none }]))
            (.ok []))
    ∧ ErrorReportScreen.render
        (ErrorReportScreen.loadAllErrorLogs (.ok none)
          (.error "getNativeErrorLogs rejected"))
      = ErrorReportScreen.Rendered.emptyState := by
  decide

/-- Claim C6 (amended): when getNativeErrorLogs fails, the screen still
finishes loading, raises no alert, keeps and renders all managed records,
and is never blocked; but no native-unavailable indicator is produced: the
rendered output is identical to a successful bridge read of an empty native
store, and with zero managed records the positive empty state shows. -/
theorem claim_C6 :
    ∀ (managed : List ErrorReportScreen.JsLog) (e : String),
      (ErrorReportScreen.loadAllErrorLogs (.ok (some managed)) (.error e)).errors
          = managed
      ∧ (ErrorReportScreen.loadAllErrorLogs (.ok (some managed)) (.error e)).nativeErrors
          = []
      ∧ (ErrorReportScreen.loadAllErrorLogs (.ok (some managed)) (.error e)).isLoading
          = false
      ∧ (ErrorReportScreen.loadAllErrorLogs (.ok (some managed)) (.error e)).alerts
          = []
      ∧ ErrorReportScreen.render
            (ErrorReportScreen.loadAllErrorLogs (.ok (some managed)) (.error e))
          = ErrorReportScreen.render
            (ErrorReportScreen.loadAllErrorLogs (.ok (some managed)) (.ok []))
      ∧ (ErrorReportScreen.allErrors managed []).Perm
          (managed.map ErrorReportScreen.MergedLog.js) := by
  intro managed e
  refine ⟨rfl, rfl, rfl, rfl, rfl, ?_⟩
  have h := List.perm_insertionSort ErrorReportScreen.timeDesc
    (ErrorReportScreen.taggedLogs managed [])
  simpa [ErrorReportScreen.taggedLogs, ErrorReportScreen.allErrors] using h

/-- Claim C7 (confirmed): the uncaught-exception handler always delegates to
the previously registered default handler with the same thread and
throwable; on success the crash record is prepended (trimmed) into the
crash store; when building or persisting throws, the failure is only logged
to the Log channel, storage is unchanged, and nothing escapes the
handler. -/
theorem claim_C7 :
    ∀ (env : CrashHandler.Env) (threadName : String)
      (thr : CrashHandler.Throwable) (st : CrashHandler.CrashState),
      (env.defaultPresent = true →
        (CrashHandler.uncaughtException env threadName thr st).chained
          = some (threadName, thr))
      ∧ (env.buildFails = false → env.persistFails = false →
          (CrashHandler.uncaughtException env threadName thr st).state.prefs
            = st.prefs.putArr CrashHandler.crashKey
                (CrashHandler.crashInsert
                  (CrashHandler.crashRecord env threadName thr)
                  (st.prefs.getArr CrashHandler.crashKey)))
      ∧ (env.buildFails = true ∨ env.persistFails = true →
          (CrashHandler.uncaughtException env threadName thr st).state.prefs
              = st.prefs
            ∧ "Failed to save crash log"
              ∈ (CrashHandler.uncaughtException env threadName thr st).state.logcat) := by
  intro env threadName thr st
  refine ⟨fun h => ?_, fun hb hp => ?_, fun h => ?_⟩
  · simp [CrashHandler.uncaughtException, h]
  · simp [CrashHandler.uncaughtException, CrashHandler.saveCrashLog,
      CrashHandler.saveCrashLogBody, hb, hp]
  · rcases h with h | h
    · simp [CrashHandler.uncaughtException, CrashHandler.saveCrashLog,
        CrashHandler.saveCrashLogBody, h]
    · cases hb : env.buildFails <;>
        simp [CrashHandler.uncaughtException, CrashHandler.saveCrashLog,
          CrashHandler.saveCrashLogBody, h, hb]

/-- Witness for claim C7: a concrete uncaught exception on thread worker-1
chains to the registered default handler, and a concrete persistence
failure leaves storage untouched. -/
theorem claim_C7_witness :
    (CrashHandler.uncaughtException
        { buildFails := false, persistFails := false, defaultPresent := true,
          now := 1, uuid := "u", tstamp := "t",
          device := { manufacturer := "Google", model := "Pixel",
                      androidVersion := "14", sdkInt := 34 } }
        "worker-1"
        { message := some "null pointer", className := "java.lang.NullPointerException",
          stackText := "backtrace" }
        { prefs := Prefs.empty, logcat := [] }).chained
      = some ("worker-1",
          { message := some "null pointer", className := "java.lang.NullPointerException",
            stackText := "backtrace" })
    ∧ (CrashHandler.uncaughtException
        { buildFails := false, persistFails := true, defaultPresent := true,
          now := 1, uuid := "u", tstamp := "t",
          device := { manufacturer := "Google", model := "Pixel",
                      androidVersion := "14", sdkInt := 34 } }
        "worker-1"
        { message := some "null pointer", className := "java.lang.NullPointerException",
          stackText := "backtrace" }
        { prefs := Prefs.empty, logcat := [] }).state.prefs = Prefs.empty :=
  ⟨(claim_C7 _ "worker-1" _ _).1 rfl,
   ((claim_C7 _ "worker-1" _ _).2.2 (Or.inr rfl)).1⟩

/-- Claim C8 (confirmed): the boundary starts Healthy; a fault thrown while
rendering the wrapped subtree moves it to Faulted and prepends exactly one
component record (message, stack, component trace) to the managed store;
the only transition out of Faulted is the Try Again action, which resets
the state, after which a clean render keeps the boundary Healthy. -/
theorem claim_C8 :
    ErrorBoundary.init.hasError = false
    ∧ (∀ (e : ErrorBoundary.JsError) (cs : String) (store : List MRec),
        ErrorBoundary.step ErrorBoundary.init store (.childRender (some (e, cs)))
          = ({ hasError := true, error := some e, errorInfo := some cs },
             managedInsert (ErrorBoundary.record e cs) store))
    ∧ (∀ (st : ErrorBoundary.BState) (store : List MRec) (ev : ErrorBoundary.BEvent),
        (ErrorBoundary.step st store ev).1.hasError = false →
          st.hasError = false ∨ ev = .tryAgain)
    ∧ (∀ (st : ErrorBoundary.BState) (store : List MRec),
        st.hasError = true →
          ErrorBoundary.step st store .tryAgain = (ErrorBoundary.init, store))
    ∧ (∀ store : List MRec,
        ErrorBoundary.step ErrorBoundary.init store (.childRender none)
          = (ErrorBoundary.init, store)) := by
  refine ⟨rfl, fun e cs store => rfl, fun st store ev h => ?_, fun st store h => ?_,
    fun store => rfl⟩
  · cases ev with
    | childRender fault =>
      left
      by_cases hs : st.hasError
      · simp [ErrorBoundary.step, hs] at h
      · simpa using hs
    | tryAgain => right; rfl
  · simp [ErrorBoundary.step, h]

/-- Witness for claim C8: at a concrete Faulted state, Try Again resets the
boundary, and a concrete clean render at the initial state is classified by
the only-transition clause. -/
theorem claim_C8_witness :
    (ErrorBoundary.init.hasError = false
      ∨ ErrorBoundary.BEvent.childRender none = ErrorBoundary.BEvent.tryAgain)
    ∧ ErrorBoundary.step
        { hasError := true, error := some { message := "boom", stack := none },
          errorInfo := some "in App" } [] .tryAgain
      = (ErrorBoundary.init, []) :=
  ⟨claim_C8.2.2.1 ErrorBoundary.init [] (.childRender none) rfl,
   claim_C8.2.2.2.1 _ [] rfl⟩

/-- Claim C10 (confirmed): getErrorLogs is total and returns the parsed list
only on a successful read, the empty list on every failure, so a rejected
read is indistinguishable from an empty store; clearErrorLogs is total and
only emits a diagnostic line when removal fails. -/
theorem claim_C10 :
    (∀ r : ErrorHandler.StorageRead,
      ErrorHandler.getErrorLogs r =
        match r with
        | .content logs => logs
        | _ => [])
    ∧ (∀ e, ErrorHandler.getErrorLogs (.failure e) = ErrorHandler.getErrorLogs .missing)
    ∧ (∀ raw, ErrorHandler.getErrorLogs (.corrupt raw) = [])
    ∧ (∀ o : Except String Unit,
        ErrorHandler.clearErrorLogs o =
          match o with
          | .ok _ => []
          | .error e => ["Error clearing error logs: " ++ e]) := by
  refine ⟨fun r => ?_, fun e => rfl, fun raw => rfl, fun o => ?_⟩
  · cases r <;> rfl
  · cases o <;> rfl

/-! Helper lemmas about the intercepted console-error pipeline. -/

theorem benign_reentrantMsg : ErrorHandler.benign ErrorHandler.reentrantMsg = false := by
  decide

theorem okEnv_storageFails : okEnv.storageFails = false := rfl

theorem consoleError_reentrant_len (fuel : Nat) :
    (ErrorHandler.consoleError okEnv fuel 1 ErrorHandler.reentrantMsg
        MState.empty).store.length = min fuel 50 := by
  induction fuel with
  | zero => rfl
  | succ f ih =>
    simp only [ErrorHandler.consoleError, benign_reentrantMsg, Bool.false_eq_true,
      if_false, Function.iterate_one, ErrorHandler.logErrorWith, okEnv_storageFails,
      managedInsert, List.length_take, List.length_cons, ih]
    omega

/-- Claim C2 (code bug): one call to logError after installation writes
min (fuel + 1) 50 records, not at most one, because its internal
console.error("Error logged:", record) call goes to the intercepted channel
and re-enters logError; the recursion is bounded only by the re-entrancy
fuel (stack exhaustion in the source) and the store bound. -/
theorem claim_C2 :
    ∀ (fuel : Nat) (entry : MRec),
      (ErrorHandler.logError okEnv fuel 1 entry MState.empty).store.length
        = min (fuel + 1) 50 := by
  intro fuel entry
  simp only [ErrorHandler.logError, ErrorHandler.logErrorWith, okEnv_storageFails,
    Bool.false_eq_true, if_false, managedInsert, List.length_take,
    List.length_cons, consoleError_reentrant_len]
  omega

theorem logErrorWith_jsOnly (env : MEnv) (consoleE : String → MState → MState)
    (hC : ∀ (msg : String) (st : MState),
      (∀ r ∈ st.store, r.rtype = "javascript") →
      ∀ r ∈ (consoleE msg st).store, r.rtype = "javascript")
    (entry : MRec) (he : entry.rtype = "javascript") (st : MState)
    (h : ∀ r ∈ st.store, r.rtype = "javascript") :
    ∀ r ∈ (ErrorHandler.logErrorWith env consoleE entry st).store,
      r.rtype = "javascript" := by
  intro r hr
  unfold ErrorHandler.logErrorWith at hr
  by_cases hs : env.storageFails
  · simp only [hs, if_true] at hr
    exact hC _ _ (hC _ _ h) r hr
  · simp only [hs, Bool.false_eq_true, if_false] at hr
    rcases List.mem_cons.mp (List.take_subset _ _ hr) with h1 | h2
    · exact h1 ▸ he
    · exact hC _ _ h r h2

theorem consoleError_jsOnly (env : MEnv) :
    ∀ (fuel wrappers : Nat) (msg : String) (st : MState),
      (∀ r ∈ st.store, r.rtype = "javascript") →
      ∀ r ∈ (ErrorHandler.consoleError env fuel wrappers msg st).store,
        r.rtype = "javascript" := by
  intro fuel
  induction fuel with
  | zero => intro wrappers msg st h; simpa [ErrorHandler.consoleError] using h
  | succ f ih =>
    intro wrappers msg st h
    simp only [ErrorHandler.consoleError]
    by_cases hb : ErrorHandler.benign msg
    · simpa [hb] using h
    · simp only [hb, Bool.false_eq_true, if_false]
      have hiter : ∀ (n : Nat) (s : MState),
          (∀ r ∈ s.store, r.rtype = "javascript") →
          ∀ r ∈ ((fun s => ErrorHandler.logErrorWith env
              (ErrorHandler.consoleError env f wrappers)
              (ErrorHandler.consoleRec msg) s)^[n] s).store,
            r.rtype = "javascript" := by
        intro n
        induction n with
        | zero => intro s hs; simpa using hs
        | succ k ihk =>
          intro s hs
          rw [Function.iterate_succ_apply']
          exact logErrorWith_jsOnly env _ (fun m s2 hs2 => ih wrappers m s2 hs2)
            _ rfl _ (ihk s hs)
      simpa using hiter wrappers st h

/-- Claim C3 counterexample: the record written for an unhandled rejection
of new Error("network down") has message
"Unhandled Promise Rejection: network down"; no record with message
"network down" exists. -/
theorem claim_C3_counterexample :
    ((ErrorHandler.onUnhandledRejection okEnv 0 1 "network down" none
        MState.empty).store.filter (fun r => r.message == "network down")) = []
    ∧ (ErrorHandler.onUnhandledRejection okEnv 0 1 "network down" none
        MState.empty).store.map (fun r => (r.rtype, r.message))
      = [("promise", "Unhandled Promise Rejection: network down")] := by
  decide

/-- Claim C3 (amended): an unhandled rejection of new Error("network down")
results in exactly one new record of the rejection type (promise), whose
message is "Unhandled Promise Rejection: network down" (the handler
prefixes the error message); the additional records produced by the
re-entrant logging path are all of type javascript. -/
theorem claim_C3 :
    ∀ fuel : Nat,
      ((ErrorHandler.onUnhandledRejection okEnv fuel 1 "network down" none
          MState.empty).store.filter (fun r => r.rtype == "promise")).map
        (fun r => r.message)
      = ["Unhandled Promise Rejection: network down"] := by
  intro fuel
  have hjs := consoleError_jsOnly okEnv fuel 1 ErrorHandler.reentrantMsg
    MState.empty (by simp [MState.empty])
  simp only [ErrorHandler.onUnhandledRejection, ErrorHandler.logError,
    ErrorHandler.logErrorWith, okEnv_storageFails, Bool.false_eq_true, if_false,
    managedInsert]
  rw [show (50 : Nat) = 49 + 1 from rfl, List.take_succ_cons, List.filter_cons]
  have hnil : ((ErrorHandler.consoleError okEnv fuel 1 ErrorHandler.reentrantMsg
      MState.empty).store.take 49).filter (fun r => r.rtype == "promise") = [] := by
    refine List.filter_eq_nil_iff.mpr (fun a ha => ?_)
    have ha2 := hjs a (List.take_subset _ _ ha)
    rw [ha2]
    decide
  have hne : ¬ ("network down" = "") := by decide
  simp [hnil, hne]

/-- Claim C9 counterexample: after two installations one console.error
invocation of "boom" leaves two records in the store; after one
installation it leaves one record, so a second installation changes the
observable outcome. -/
theorem claim_C9_counterexample :
    (ErrorHandler.consoleError okEnv 1 2 "boom" MState.empty).store.length = 2
    ∧ (ErrorHandler.consoleError okEnv 1 1 "boom" MState.empty).store.length = 1 := by
  decide

/-- Claim C9 (amended): setupGlobalErrorHandling is not idempotent: each
call wraps the console.error chain again, so after two installations a
single console.error("boom") writes the Console Error: boom record twice
(once per wrapper), while after one installation it is written once. -/
theorem claim_C9 :
    ((ErrorHandler.consoleError okEnv 2 2 "boom" MState.empty).store.filter
        (fun r => r.message == "Console Error: boom")).length = 2
    ∧ ((ErrorHandler.consoleError okEnv 2 1 "boom" MState.empty).store.filter
        (fun r => r.message == "Console Error: boom")).length = 1 := by
  decide
